import Mathlib

/-!
# Verification of the Mistral document-analysis service

A shallow embedding, in Lean 4, of the decision logic of the
python-mistral-analysis repository:

* `mistral_api_handler.py`   — the retrying LLM call client (`run_command`),
* `urban_planning_analysis.py` — the multi-step analysis pipeline
  (`analyze_document`, `_extract_content_authors_and_title`),
* `document_processor.py`    — `process_document` and its three result shapes,
* `enhanced_document_processor.py` — `_generate_mistral_embedding`,
* `vector_graph_processor.py` — `_parse_entity_response`, `extract_entities`,
  `extract_relationships`, `create_graph_metadata`,
* `app.py`                   — the webhook eligibility gate
  (`webhook_start_analysis`, `check_idempotency`) and the
  read-then-write idempotency protocol of `run_webhook_analysis`.

Outbound HTTP calls are abstracted as oracles: an oracle value records what
the network returned (or that it timed out / raised), and the embedded
functions compute exactly what the Python code computes from that outcome.
-/

namespace MistralAnalysis

/-! ## Python string primitives

Python `str` operations used by the source, modelled on `String.data`
(lists of characters).  Python's `startswith`/`endswith`/`in` are exactly
prefix / suffix / contiguous-substring tests on the character sequence.
-/

/-- The whitespace characters stripped by Python `str.strip()` /
split by `str.split()` (the ASCII ones; the source only handles text). -/
def isPySpace (c : Char) : Bool :=
  c = ' ' || c = '\t' || c = '\n' || c = '\r' || c = '\x0b' || c = '\x0c'

/-- Python `s.strip()`. -/
def pyStrip (s : String) : String :=
  ⟨((s.data.dropWhile isPySpace).reverse.dropWhile isPySpace).reverse⟩

/-- Python `s.startswith(p)`. -/
def pyStartsWith (s p : String) : Bool :=
  p.data.isPrefixOf s.data

/-- Python `s.endswith(p)`. -/
def pyEndsWith (s p : String) : Bool :=
  p.data.reverse.isPrefixOf s.data.reverse

/-- Substring test on character lists: `pat` occurs contiguously in `s`. -/
def listContains (s pat : List Char) : Bool :=
  pat.isPrefixOf s ||
    match s with
    | [] => false
    | _ :: rest => listContains rest pat

/-- Python `pat in s` (substring containment). -/
def pyContains (s pat : String) : Bool :=
  listContains s.data pat.data

/-- Python `s[n:]` for `n ≥ 0`. -/
def pyDrop (s : String) (n : Nat) : String :=
  ⟨s.data.drop n⟩

/-- Python `s[:-n]` for `n ≥ 1` (used as `line[:-1]`); on short strings both
give the empty string. -/
def pyDropRight (s : String) (n : Nat) : String :=
  ⟨s.data.dropLast.reverse.drop (n - 1) |>.reverse⟩

/-- Python `s[:n]` for `n ≥ 0`. -/
def pyTake (s : String) (n : Nat) : String :=
  ⟨s.data.take n⟩

/-- Python `s[-n:]` for `n ≥ 1`, on strings of length ≥ n. -/
def pyTakeRight (s : String) (n : Nat) : String :=
  ⟨(s.data.reverse.take n).reverse⟩

/-- Python `s.split('\n')` (split at every newline, keeping empty pieces). -/
def pySplitLines (s : String) : List String :=
  (s.data.splitOn '\n').map fun l => ⟨l⟩

/-- Python `s.split()` (split on whitespace runs, dropping empty pieces). -/
def pySplitWs (s : String) : List String :=
  ((s.data.splitOnP isPySpace).filter fun l => ¬ l.isEmpty).map fun l => ⟨l⟩

/-- Python `s.lower()` (the source only lowercases ASCII text). -/
def pyLower (s : String) : String :=
  ⟨s.data.map Char.toLower⟩

/-- Python `s.replace(pat, rep)` on character lists: replace every
non-overlapping occurrence of `pat`, scanning left to right.  Each step
consumes at least one character, so `fuel = l.length` never runs out; the
fuel only makes the recursion structural.  (For the empty pattern the
source never calls it; this model leaves the string unchanged then.) -/
def replaceAll (pat rep : List Char) : Nat → List Char → List Char
  | 0, l => l
  | _ + 1, [] => []
  | fuel + 1, c :: rest =>
    if pat ≠ [] ∧ pat.isPrefixOf (c :: rest) then
      rep ++ replaceAll pat rep fuel (rest.drop (pat.length - 1))
    else
      c :: replaceAll pat rep fuel rest

/-- Python `s.replace(pat, rep)`. -/
def pyReplace (s pat rep : String) : String :=
  ⟨replaceAll pat.data rep.data s.data.length s.data⟩

/-- A `Bool`-valued test for the Python falsiness of an optional string
(`None` or `""`). -/
def optFalsy : Option String → Bool
  | none => true
  | some s => s = ""

/-! ### Helper lemmas about the primitives -/

theorem isPrefixOf_append {l₁ l₂ : List Char} (l₃ : List Char)
    (h : l₁.isPrefixOf l₂ = true) : l₁.isPrefixOf (l₂ ++ l₃) = true := by
  induction l₁ generalizing l₂ with
  | nil => simp [List.isPrefixOf]
  | cons a as ih =>
    cases l₂ with
    | nil => simp [List.isPrefixOf] at h
    | cons b bs =>
      simp only [List.isPrefixOf, List.cons_append, Bool.and_eq_true, beq_iff_eq] at h ⊢
      exact ⟨h.1, ih h.2⟩

/-- Appending any tail to a string keeps a prefix a prefix; in particular
every message of the form `"Error: " ++ m` starts with `"Error:"`. -/
theorem pyStartsWith_append (s p t : String) (h : pyStartsWith s p = true) :
    pyStartsWith (s ++ t) p = true := by
  unfold pyStartsWith at h ⊢
  have hdata : (s ++ t).data = s.data ++ t.data := rfl
  rw [hdata]
  exact isPrefixOf_append t.data h

theorem errTag_startsWith (m : String) :
    pyStartsWith ("Error: " ++ m) "Error:" = true :=
  pyStartsWith_append "Error: " "Error:" m (by decide)

/-! ## The retrying call client: `MistralAPIHandler.run_command`

`run_command` builds a request and loops over at most `max_retries = 3`
attempts.  What the network does on attempt `i` is an oracle value: -/

/-- Outcome of one attempt of `session.post` (plus response decoding):
* `ok content`  — HTTP 200 whose body decoded; `content` is the message text,
* `httpStatus code detail` — a non-200 status; `detail` is what
  `extract_error_detail` produced from the body,
* `timeout` / `connError` — `requests` raised `Timeout` / `ConnectionError`,
* `decodeError` — `response.json()` raised `JSONDecodeError`,
* `exc msg` — any other exception, with its `str(e)` text. -/
inductive ApiOutcome where
  | ok (content : String)
  | httpStatus (code : Nat) (detail : String)
  | timeout
  | connError
  | decodeError
  | exc (msg : String)
  deriving DecidableEq, Repr

/-- `self.max_retries` (source: `mistral_api_handler.py`, `__init__`). -/
def maxRetries : Nat := 3

/-- The retry loop of `run_command` (`for attempt in range(self.max_retries)`),
returning the result string together with the number of attempts made
(calls of `session.post`).  `fuel` is the number of loop iterations left, so
an attempt is the last one exactly when `fuel = 0` afterwards
(`attempt == self.max_retries - 1` in the source). -/
def runLoop (oracle : Nat → ApiOutcome) : Nat → Nat → String × Nat
  | attempt, 0 =>
    ("Error: Maximum retry attempts reached. Please try again later.", attempt)
  | attempt, fuel + 1 =>
    match oracle attempt with
    | .ok content => (pyStrip content, attempt + 1)
    | .httpStatus code detail =>
      if code = 429 then
        runLoop oracle (attempt + 1) fuel
      else if code = 401 then
        ("Error: Invalid API key or authentication failed", attempt + 1)
      else if 500 ≤ code then
        runLoop oracle (attempt + 1) fuel
      else
        ("Error: API request failed - " ++ detail, attempt + 1)
    | .timeout =>
      if fuel = 0 then
        ("Error: All requests timed out. Please try again later.", attempt + 1)
      else
        runLoop oracle (attempt + 1) fuel
    | .connError =>
      if fuel = 0 then
        ("Error: Unable to connect to Mistral API. Please check your internet connection.",
          attempt + 1)
      else
        runLoop oracle (attempt + 1) fuel
    | .decodeError => ("Error: Invalid response from API", attempt + 1)
    | .exc msg => ("Error: " ++ msg, attempt + 1)

/-- `MistralAPIHandler.run_command`.  `apiKey = ""` models a missing key
(Python `None` or empty are both falsy), `prompt = ""` an invalid prompt.
Returns the result string and the number of attempts made. -/
def runCommand (oracle : Nat → ApiOutcome) (apiKey prompt : String) : String × Nat :=
  if apiKey = "" then ("Error: API key not configured", 0)
  else if prompt = "" then ("Error: Invalid prompt", 0)
  else runLoop oracle 0 maxRetries

/-- `MistralAPIHandler.validate_connection`: issues a fixed test prompt and
reports success exactly when the result does not carry the failure marker. -/
def validateConnection (oracle : Nat → ApiOutcome) (apiKey : String) : Bool :=
  !(pyStartsWith (runCommand oracle apiKey "Test connection").1 "Error:")

/-! ### Behaviour of the retry loop -/

/-- A 429 response is retried: the loop moves on to the next attempt. -/
theorem runLoop_retry_429 (oracle : Nat → ApiOutcome) (attempt fuel : Nat) (d : String)
    (h : oracle attempt = .httpStatus 429 d) :
    runLoop oracle attempt (fuel + 1) = runLoop oracle (attempt + 1) fuel := by
  simp [runLoop, h]

/-- Every terminal string produced by the retry loop either carries the
`"Error:"` marker or is the stripped content of a successful (HTTP 200)
attempt made within the loop's window. -/
theorem runLoop_error_or_ok (oracle : Nat → ApiOutcome) :
    ∀ (fuel attempt : Nat),
      pyStartsWith (runLoop oracle attempt fuel).1 "Error:" = true ∨
      ∃ i c, attempt ≤ i ∧ i < attempt + fuel ∧ oracle i = .ok c ∧
        (runLoop oracle attempt fuel).1 = pyStrip c := by
  intro fuel
  induction fuel with
  | zero =>
    intro attempt
    left
    show pyStartsWith "Error: Maximum retry attempts reached. Please try again later." "Error:"
      = true
    decide
  | succ fuel ih =>
    intro attempt
    cases ho : oracle attempt with
    | ok c =>
      refine Or.inr ⟨attempt, c, le_refl _, by omega, ho, ?_⟩
      simp [runLoop, ho]
    | httpStatus code detail =>
      by_cases h429 : code = 429
      · have hstep : runLoop oracle attempt (fuel + 1) = runLoop oracle (attempt + 1) fuel := by
          simp [runLoop, ho, h429]
        rw [hstep]
        rcases ih (attempt + 1) with h | ⟨i, c, hle, hlt, hoc, hres⟩
        · exact Or.inl h
        · exact Or.inr ⟨i, c, by omega, by omega, hoc, hres⟩
      · by_cases h401 : code = 401
        · left
          simp [runLoop, ho, h429, h401]
          decide
        · by_cases h5xx : 500 ≤ code
          · have hstep : runLoop oracle attempt (fuel + 1) = runLoop oracle (attempt + 1) fuel := by
              simp [runLoop, ho, h429, h401, h5xx]
            rw [hstep]
            rcases ih (attempt + 1) with h | ⟨i, c, hle, hlt, hoc, hres⟩
            · exact Or.inl h
            · exact Or.inr ⟨i, c, by omega, by omega, hoc, hres⟩
          · left
            have hres : (runLoop oracle attempt (fuel + 1)).1
                = "Error: API request failed - " ++ detail := by
              simp [runLoop, ho, h429, h401, h5xx]
            rw [hres]
            exact pyStartsWith_append "Error: API request failed - " "Error:" detail (by decide)
    | timeout =>
      by_cases hf : fuel = 0
      · left
        simp [runLoop, ho, hf]
        decide
      · have hstep : runLoop oracle attempt (fuel + 1) = runLoop oracle (attempt + 1) fuel := by
          simp [runLoop, ho, hf]
        rw [hstep]
        rcases ih (attempt + 1) with h | ⟨i, c, hle, hlt, hoc, hres⟩
        · exact Or.inl h
        · exact Or.inr ⟨i, c, by omega, by omega, hoc, hres⟩
    | connError =>
      by_cases hf : fuel = 0
      · left
        simp [runLoop, ho, hf]
        decide
      · have hstep : runLoop oracle attempt (fuel + 1) = runLoop oracle (attempt + 1) fuel := by
          simp [runLoop, ho, hf]
        rw [hstep]
        rcases ih (attempt + 1) with h | ⟨i, c, hle, hlt, hoc, hres⟩
        · exact Or.inl h
        · exact Or.inr ⟨i, c, by omega, by omega, hoc, hres⟩
    | decodeError =>
      left
      simp [runLoop, ho]
      decide
    | exc msg =>
      left
      have hres : (runLoop oracle attempt (fuel + 1)).1 = "Error: " ++ msg := by
        simp [runLoop, ho]
      rw [hres]
      exact errTag_startsWith msg

/-- C3: a client rate-limited (HTTP 429) on every attempt makes exactly
`maxRetries = 3` attempts and then returns the terminal retries-exhausted
error. -/
theorem rate_limited_every_attempt_makes_max_retries_attempts
    (oracle : Nat → ApiOutcome) (apiKey prompt : String)
    (hk : apiKey ≠ "") (hp : prompt ≠ "")
    (h : ∀ i, i < maxRetries → ∃ d, oracle i = .httpStatus 429 d) :
    runCommand oracle apiKey prompt
      = ("Error: Maximum retry attempts reached. Please try again later.", maxRetries) := by
  obtain ⟨d0, h0⟩ := h 0 (by decide)
  obtain ⟨d1, h1⟩ := h 1 (by decide)
  obtain ⟨d2, h2⟩ := h 2 (by decide)
  have hcmd : runCommand oracle apiKey prompt = runLoop oracle 0 maxRetries := by
    simp [runCommand, hk, hp]
  rw [hcmd]
  calc runLoop oracle 0 maxRetries
      = runLoop oracle 1 2 := runLoop_retry_429 oracle 0 2 d0 h0
    _ = runLoop oracle 2 1 := runLoop_retry_429 oracle 1 1 d1 h1
    _ = runLoop oracle 3 0 := runLoop_retry_429 oracle 2 0 d2 h2
    _ = ("Error: Maximum retry attempts reached. Please try again later.", maxRetries) := rfl

/-- Witness for C3: a concrete always-429 client. -/
theorem rate_limited_every_attempt_makes_max_retries_attempts_witness :
    runCommand (fun _ => .httpStatus 429 "rate limited") "key" "prompt"
      = ("Error: Maximum retry attempts reached. Please try again later.", maxRetries) :=
  rate_limited_every_attempt_makes_max_retries_attempts
    (fun _ => .httpStatus 429 "rate limited") "key" "prompt"
    (by decide) (by decide) (fun _ _ => ⟨"rate limited", rfl⟩)

/-- C4: an HTTP 401 response and a response-decode failure are never
retried: wherever they occur in the loop, the call returns at that attempt,
each with its own distinct error string; in particular a client answering
401 (or failing to decode) on the first attempt makes exactly one attempt
total. -/
theorem auth_and_decode_failures_never_retried :
    (∀ (oracle : Nat → ApiOutcome) (apiKey prompt d : String),
        apiKey ≠ "" → prompt ≠ "" → oracle 0 = .httpStatus 401 d →
        runCommand oracle apiKey prompt
          = ("Error: Invalid API key or authentication failed", 1))
    ∧ (∀ (oracle : Nat → ApiOutcome) (apiKey prompt : String),
        apiKey ≠ "" → prompt ≠ "" → oracle 0 = .decodeError →
        runCommand oracle apiKey prompt = ("Error: Invalid response from API", 1))
    ∧ (∀ (oracle : Nat → ApiOutcome) (attempt fuel : Nat) (d : String),
        oracle attempt = .httpStatus 401 d →
        runLoop oracle attempt (fuel + 1)
          = ("Error: Invalid API key or authentication failed", attempt + 1))
    ∧ (∀ (oracle : Nat → ApiOutcome) (attempt fuel : Nat),
        oracle attempt = .decodeError →
        runLoop oracle attempt (fuel + 1)
          = ("Error: Invalid response from API", attempt + 1))
    ∧ ("Error: Invalid API key or authentication failed"
        ≠ "Error: Invalid response from API") := by
  refine ⟨?_, ?_, ?_, ?_, by decide⟩
  · intro oracle apiKey prompt d hk hp h0
    have hcmd : runCommand oracle apiKey prompt = runLoop oracle 0 maxRetries := by
      simp [runCommand, hk, hp]
    rw [hcmd]
    show runLoop oracle 0 (2 + 1) = _
    simp [runLoop, h0]
  · intro oracle apiKey prompt hk hp h0
    have hcmd : runCommand oracle apiKey prompt = runLoop oracle 0 maxRetries := by
      simp [runCommand, hk, hp]
    rw [hcmd]
    show runLoop oracle 0 (2 + 1) = _
    simp [runLoop, h0]
  · intro oracle attempt fuel d h
    simp [runLoop, h]
  · intro oracle attempt fuel h
    simp [runLoop, h]

/-- Witness for C4: concrete clients answering 401 / an undecodable body on
the first attempt. -/
theorem auth_and_decode_failures_never_retried_witness :
    runCommand (fun _ => .httpStatus 401 "bad key") "key" "prompt"
      = ("Error: Invalid API key or authentication failed", 1)
    ∧ runCommand (fun _ => .decodeError) "key" "prompt"
      = ("Error: Invalid response from API", 1) :=
  ⟨auth_and_decode_failures_never_retried.1
      (fun _ => .httpStatus 401 "bad key") "key" "prompt" "bad key"
      (by decide) (by decide) rfl,
    auth_and_decode_failures_never_retried.2.1
      (fun _ => .decodeError) "key" "prompt" (by decide) (by decide) rfl⟩

/-- C9: `run_command` is a total function into strings, and every failure
path produces a string carrying the `"Error:"` prefix — the exact marker
`validate_connection` (and `analyze_document`) test for; the only results
without the marker are the stripped contents of a successful attempt. -/
theorem runCommand_failures_carry_error_marker
    (oracle : Nat → ApiOutcome) (apiKey prompt : String) :
    (pyStartsWith (runCommand oracle apiKey prompt).1 "Error:" = true ∨
      ∃ i c, i < maxRetries ∧ oracle i = .ok c ∧
        (runCommand oracle apiKey prompt).1 = pyStrip c)
    ∧ validateConnection oracle apiKey
        = !(pyStartsWith (runCommand oracle apiKey "Test connection").1 "Error:") := by
  refine ⟨?_, rfl⟩
  by_cases hk : apiKey = ""
  · left
    simp [runCommand, hk]
    decide
  · by_cases hp : prompt = ""
    · left
      simp [runCommand, hk, hp]
      decide
    · have hcmd : runCommand oracle apiKey prompt = runLoop oracle 0 maxRetries := by
        simp [runCommand, hk, hp]
      rw [hcmd]
      rcases runLoop_error_or_ok oracle maxRetries 0 with h | ⟨i, c, _, hlt, hoc, hres⟩
      · exact Or.inl h
      · exact Or.inr ⟨i, c, by omega, hoc, hres⟩

/-! ## The analysis pipeline: `UrbanPlanningAnalysis.analyze_document`

Each pipeline step issues one `run_command` call; the per-step response
strings are inputs of the embedded function (a response may itself be an
`"Error:"`-prefixed string, since `run_command` reports failures that way
and never raises). -/

/-- `UrbanPlanningAnalysis._clean_text_for_analysis`:
`' '.join(text.split())`, then truncate around the middle past 8000
characters. -/
def cleanText (s : String) : String :=
  let t := String.intercalate " " (pySplitWs s)
  if 8000 < t.length then
    pyTake t 4000 ++ "\n...[content truncated]...\n" ++ pyTakeRight t 4000
  else t

/-- Result of `_extract_content_authors_and_title` (step 1). -/
structure ContentExtracted where
  content_title : String
  content_authors : String
  content_date : String
  deriving DecidableEq, Repr

/-- `_extract_content_authors_and_title`: scan the response lines for the
three fixed markers; the method catches its own exceptions (`none` input)
and then substitutes fixed placeholder values — it never fails the attempt. -/
def extractContentInfo : Option String → ContentExtracted
  | none =>
    { content_title := "Error in content extraction",
      content_authors := "Error in content extraction",
      content_date := "Error in content extraction" }
  | some result =>
    (pySplitLines result).foldl
      (fun ce line =>
        if pyStartsWith line "CONTENT_TITLE:" then
          { ce with content_title := pyStrip (pyReplace line "CONTENT_TITLE:" "") }
        else if pyStartsWith line "CONTENT_AUTHORS:" then
          { ce with content_authors := pyStrip (pyReplace line "CONTENT_AUTHORS:" "") }
        else if pyStartsWith line "CONTENT_DATE:" then
          { ce with content_date := pyStrip (pyReplace line "CONTENT_DATE:" "") }
        else ce)
      { content_title := "Not found in document content",
        content_authors := "Not found in document content",
        content_date := "Not found in document content" }

/-- The Peter-Hall test applied to the metadata author and the
content-derived authors (`'hall' in s.lower() or 'peter hall' in s.lower()`). -/
def hallMatch (s : String) : Bool :=
  pyContains (pyLower s) "hall" || pyContains (pyLower s) "peter hall"

/-- The Peter-Hall test applied to the generated catalogue entry. -/
def catalogueHallMatch (c : String) : Bool :=
  let l := pyLower c
  pyContains l "metadata author(s): peter hall" ||
    pyContains l "content-derived author(s): peter hall" ||
    pyContains l "author(s): peter hall" ||
    pyContains l "author: peter hall"

/-- The `is_hall_document` flag of `analyze_document`: metadata author first,
then content-derived authors, then the catalogue entry, stopping at the
first match. -/
def hallFlag (metaAuthor contentAuthors catalogue : String) : Nat :=
  if hallMatch metaAuthor then 1
  else if hallMatch contentAuthors then 1
  else if catalogueHallMatch catalogue then 1
  else 0

theorem hallFlag_zero_or_one (a b c : String) : hallFlag a b c = 0 ∨ hallFlag a b c = 1 := by
  unfold hallFlag
  by_cases h1 : hallMatch a = true <;> by_cases h2 : hallMatch b = true <;>
    by_cases h3 : catalogueHallMatch c = true <;> simp [h1, h2, h3]

/-- The per-step `run_command` responses consumed by one run of
`analyze_document`.  `extractOutcome = none` models an exception inside
step 1 (which step 1 itself catches).  `confResp` is the confidentiality
assessment of step 5; the source feeds it into the catalogue prompt only,
so it influences no later computation directly. -/
structure StepResponses where
  extractOutcome : Option String
  initResp : String
  detResp : String
  classResp : String
  confResp : String
  catResp : String
  styleResp : String
  frameResp : String
  qaResp : String
  compResp : String
  deriving DecidableEq, Repr

/-- The success fields of `analyze_document`. -/
structure AnalysisFields where
  initial_analysis : String
  detailed_analysis : String
  classification : String
  catalogue_entry : String
  content_title : String
  content_authors : String
  writing_style_analysis : String
  analytical_frameworks : String
  qa_pairs : String
  comparative_analyses : String
  is_hall_document : Nat
  deriving DecidableEq, Repr

/-- Result of `analyze_document`: either the dict with an `"error"` key (plus
the local fallback analysis) or the full success dict. -/
inductive AnalyzeResult where
  | error (msg fallback : String)
  | ok (fields : AnalysisFields)
  deriving DecidableEq, Repr

/-- Whether the result carries the `"error"` key. -/
def AnalyzeResult.isErr : AnalyzeResult → Bool
  | .error _ _ => true
  | .ok _ => false

/-- `UrbanPlanningAnalysis.analyze_document`.  `fallbackFn` stands for
`_fallback_analysis` (its output text involves Python float percentage
formatting; no claim inspects it, only that it is attached to error
results).  `exc = some m` models an exception raised inside the outer
`try` (caught by the method's own handler); `run_command` itself never
raises.  Only steps 2 and 3 are checked for the `"Error:"` marker; the
responses of steps 1, 4, 5 and 6 flow into the result unchecked. -/
def analyzeDocument (fallbackFn : String → String) (content0 metaAuthor : String)
    (r : StepResponses) (exc : Option String) : AnalyzeResult :=
  let content := cleanText content0
  match exc with
  | some m => .error ("Analysis failed: " ++ m) (fallbackFn content)
  | none =>
    let ce := extractContentInfo r.extractOutcome
    if pyStartsWith r.initResp "Error:" then .error r.initResp (fallbackFn content)
    else if pyStartsWith r.detResp "Error:" then .error r.detResp (fallbackFn content)
    else
      .ok { initial_analysis := r.initResp, detailed_analysis := r.detResp,
            classification := r.classResp, catalogue_entry := r.catResp,
            content_title := ce.content_title, content_authors := ce.content_authors,
            writing_style_analysis := r.styleResp, analytical_frameworks := r.frameResp,
            qa_pairs := r.qaResp, comparative_analyses := r.compResp,
            is_hall_document := hallFlag metaAuthor ce.content_authors r.catResp }

/-! ## The extended (vector/graph) pipeline -/

/-- Outcome of the embeddings-endpoint request of
`EnhancedDocumentProcessor._generate_mistral_embedding`:
HTTP 200 with a decoded vector, a non-200 status, a timeout, or any other
exception.  The numeric entries are modelled as rationals (the claims only
concern the exact all-zero vector). -/
inductive EmbedOutcome where
  | ok (vec : List ℚ)
  | httpError (code : Nat)
  | timeout
  | exc (msg : String)

/-- `_generate_mistral_embedding`: the vector on success, and the fixed
1024-dimensional zero vector on every failure branch (non-200 status,
timeout, other exception); the function never re-raises. -/
def generateMistralEmbedding : EmbedOutcome → List ℚ
  | .ok vec => vec
  | .httpError _ => List.replicate 1024 0
  | .timeout => List.replicate 1024 0
  | .exc _ => List.replicate 1024 0

/-- The six fixed entity categories of `VectorGraphProcessor`, in source
order. -/
def entityCats : List String :=
  ["cities_places", "transport_planning", "urban_concepts",
   "geographic_spatial", "problems_challenges", "solutions_methods"]

/-- The entities dict: category name to its (insertion-ordered) entity
list. -/
abbrev EntMap := List (String × List String)

/-- The initial (and fallback) all-empty entities dict. -/
def emptyEntities : EntMap := entityCats.map fun c => (c, [])

/-- `entities[cat]` (the categories dict always holds all six keys). -/
def lookupCat (m : EntMap) (cat : String) : List String :=
  match m.find? fun p => p.1 = cat with
  | some p => p.2
  | none => []

/-- Append an entity to the list of category `cat`. -/
def addEntity (m : EntMap) (cat e : String) : EntMap :=
  m.map fun p => if p.1 = cat then (p.1, p.2 ++ [e]) else p

/-- One line of `_parse_entity_response`: strip, recognize a category header
(`line.endswith(':') and line[:-1] in entities`), otherwise a bullet item
under the current category, suppressing empties and in-category duplicates;
every other line is ignored. -/
def parseEntityLine (st : Option String × EntMap) (raw : String) : Option String × EntMap :=
  let line := pyStrip raw
  if pyEndsWith line ":" && entityCats.contains (pyDropRight line 1) then
    (some (pyDropRight line 1), st.2)
  else if pyStartsWith line "- " then
    match st.1 with
    | some cat =>
      let e := pyStrip (pyDrop line 2)
      if e ≠ "" ∧ ¬ e ∈ lookupCat st.2 cat then (st.1, addEntity st.2 cat e) else st
    | none => st
  else st

/-- `VectorGraphProcessor._parse_entity_response`. -/
def parseEntityResponse (response : String) : EntMap :=
  ((pySplitLines response).foldl parseEntityLine (none, emptyEntities)).2

/-- `VectorGraphProcessor.extract_entities`: parse the response; if the call
or the parse raised (`none`), fall back to the all-empty dict — the request
never fails because of this step. -/
def extractEntities : Option String → EntMap
  | none => emptyEntities
  | some response => parseEntityResponse response

/-- A relationship triple (`from` is a Lean keyword, hence `fromEntity`). -/
structure Relationship where
  fromEntity : String
  relation : String
  toEntity : String
  deriving DecidableEq, Repr

/-- The flattened entity list fed to the relationship prompt
(`entity_list[:10]` per category). -/
def allEntitiesOf (ents : EntMap) : List String :=
  (ents.map fun p => p.2.take 10).flatten

/-- `VectorGraphProcessor.extract_relationships`: with no entities, skip and
return `[]`; if the call or parse raised (`none`), return `[]`; otherwise
the parsed triples.  The regex line parser is kept abstract as `parse`
(no claim depends on its output, only on the fallback branches). -/
def extractRelationships (parse : String → List Relationship) (ents : EntMap) :
    Option String → List Relationship
  | none => if (allEntitiesOf ents).isEmpty then [] else []
  | some response => if (allEntitiesOf ents).isEmpty then [] else parse response

/-- `VectorGraphProcessor.create_graph_metadata` (the dynamic fields of the
returned dict; fixed metadata strings and the timestamp omitted). -/
structure GraphMeta where
  total_entities : Nat
  total_relationships : Nat
  entity_types : List String
  entity_counts_by_type : List (String × Nat)
  deriving DecidableEq, Repr

/-- `create_graph_metadata`: entity totals, per-category counts and the
non-empty category list. -/
def createGraphMetadata (ents : EntMap) (rels : List Relationship) : GraphMeta :=
  { total_entities := (ents.map fun p => p.2.length).sum,
    total_relationships := rels.length,
    entity_types := (ents.filter fun p => 0 < p.2.length).map fun p => p.1,
    entity_counts_by_type := ents.map fun p => (p.1, p.2.length) }

/-! ### Failure semantics of the pipeline (claim C1) -/

/-- A run in which steps 1–3 succeed but step 4 (classification) reports an
`"Error:"` result, which `analyze_document` never checks. -/
def counterexampleResponses : StepResponses :=
  { extractOutcome := some "CONTENT_TITLE: Plan\nCONTENT_AUTHORS: Jane Doe\nCONTENT_DATE: 2010-11-01",
    initResp := "initial analysis text",
    detResp := "detailed analysis text",
    classResp := "Error: API request failed - Status code: 400",
    confResp := "Level: None",
    catResp := "CATALOGUE ENTRY",
    styleResp := "style analysis",
    frameResp := "frameworks",
    qaResp := "qa pairs",
    compResp := "comparisons" }

/-- C1, counterexample: step 4 (classification) reports an error, yet
`analyze_document` returns a success result — the error string is embedded
in the `classification` field instead of failing the attempt. -/
theorem step4_error_not_fatal_counterexample :
    pyStartsWith counterexampleResponses.classResp "Error:" = true
    ∧ analyzeDocument (fun _ => "keyword fallback") "zoning document body" ""
        counterexampleResponses none
      = .ok { initial_analysis := "initial analysis text",
              detailed_analysis := "detailed analysis text",
              classification := "Error: API request failed - Status code: 400",
              catalogue_entry := "CATALOGUE ENTRY",
              content_title := "Plan",
              content_authors := "Jane Doe",
              writing_style_analysis := "style analysis",
              analytical_frameworks := "frameworks",
              qa_pairs := "qa pairs",
              comparative_analyses := "comparisons",
              is_hall_document := 0 } := by
  constructor
  · decide
  · decide

/-- C1, amended: an attempt returns the `error` result (with the local
fallback analysis) exactly when step 2 or step 3 reports an `"Error:"`
response or an unhandled exception occurs; error reports of steps 1, 4, 5, 6
are embedded in a success result; and the extended steps degrade to
empty/zero defaults (empty entities dict, empty relationship list, all-zero
1024-vector, zero graph statistics) instead of failing the request. -/
theorem fatal_iff_step2_or_step3_error_and_extended_steps_degrade :
    (∀ (fallbackFn : String → String) (content metaAuthor : String) (r : StepResponses)
        (exc : Option String),
        (analyzeDocument fallbackFn content metaAuthor r exc).isErr = true
          ↔ (exc.isSome = true ∨ pyStartsWith r.initResp "Error:" = true
              ∨ pyStartsWith r.detResp "Error:" = true))
    ∧ extractEntities none = emptyEntities
    ∧ (∀ (parse : String → List Relationship) (ents : EntMap),
        extractRelationships parse ents none = [])
    ∧ (∀ code, generateMistralEmbedding (.httpError code) = List.replicate 1024 0)
    ∧ generateMistralEmbedding .timeout = List.replicate 1024 0
    ∧ (∀ m, generateMistralEmbedding (.exc m) = List.replicate 1024 0)
    ∧ createGraphMetadata emptyEntities []
        = { total_entities := 0, total_relationships := 0, entity_types := [],
            entity_counts_by_type := entityCats.map fun c => (c, 0) } := by
  refine ⟨?_, rfl, ?_, fun _ => rfl, rfl, fun _ => rfl, by decide⟩
  · intro fallbackFn content metaAuthor r exc
    cases exc with
    | some m => simp [analyzeDocument, AnalyzeResult.isErr]
    | none =>
      by_cases h1 : pyStartsWith r.initResp "Error:" = true
      · simp [analyzeDocument, AnalyzeResult.isErr, h1]
      · by_cases h2 : pyStartsWith r.detResp "Error:" = true
        · simp [analyzeDocument, AnalyzeResult.isErr, h1, h2]
        · simp [analyzeDocument, AnalyzeResult.isErr, h1, h2]
  · intro parse ents
    simp [extractRelationships]

/-! ### The entity parser (claim C6) -/

/-- The parser state invariant: the dict always holds exactly the six fixed
category keys in order, and every category list is duplicate-free. -/
def GoodMap (m : EntMap) : Prop :=
  (m.map fun p => p.1) = entityCats ∧ ∀ p ∈ m, p.2.Nodup

/-- With duplicate-free keys, `lookupCat` returns the list of any member
pair with the matching key. -/
theorem lookupCat_eq_of_mem (cat : String) (p : String × List String) :
    ∀ m : EntMap, (m.map fun q => q.1).Nodup → p ∈ m → p.1 = cat →
      lookupCat m cat = p.2 := by
  intro m
  induction m with
  | nil => intro _ hp _; cases hp
  | cons q rest ih =>
    intro hk hp hc
    rw [List.mem_cons] at hp
    rw [List.map_cons, List.nodup_cons] at hk
    rcases hp with h | h
    · subst h
      unfold lookupCat
      rw [List.find?_cons_of_pos _ (by simp [hc])]
    · have hq : ¬ q.1 = cat := by
        intro hqc
        exact hk.1 (by rw [hqc, ← hc]; exact List.mem_map_of_mem _ h)
      unfold lookupCat
      rw [List.find?_cons_of_neg _ (by simp [hq])]
      exact ih hk.2 h hc

/-- `addEntity` with a genuinely new entity preserves the invariant. -/
theorem goodMap_addEntity (m : EntMap) (cat e : String) (hg : GoodMap m)
    (he : ¬ e ∈ lookupCat m cat) : GoodMap (addEntity m cat e) := by
  obtain ⟨hkeys, hnodup⟩ := hg
  constructor
  · rw [addEntity, List.map_map, ← hkeys]
    apply List.map_congr_left
    intro p _
    by_cases hp : p.1 = cat <;> simp [hp]
  · intro p hp
    rw [addEntity, List.mem_map] at hp
    obtain ⟨q, hq, hqe⟩ := hp
    by_cases hqc : q.1 = cat
    · rw [if_pos hqc] at hqe
      have hlq : lookupCat m cat = q.2 :=
        lookupCat_eq_of_mem cat q m (hkeys ▸ (by decide : entityCats.Nodup)) hq hqc
      rw [← hqe]
      simp only [List.nodup_append, List.nodup_cons, List.nodup_nil]
      refine ⟨hnodup q hq, ⟨by simp, trivial⟩, ?_⟩
      intro x hx hx'
      simp at hx'
      subst hx'
      exact he (hlq ▸ hx)
    · rw [if_neg hqc] at hqe
      exact hqe ▸ hnodup q hq

/-- The invariant holds for the initial all-empty dict. -/
theorem goodMap_empty : GoodMap emptyEntities :=
  ⟨by decide, by decide⟩

/-- Each parsed line preserves the invariant. -/
theorem goodMap_parseEntityLine (st : Option String × EntMap) (raw : String)
    (h : GoodMap st.2) : GoodMap (parseEntityLine st raw).2 := by
  obtain ⟨cur, m⟩ := st
  unfold parseEntityLine
  dsimp only
  by_cases h1 : (pyEndsWith (pyStrip raw) ":"
      && entityCats.contains (pyDropRight (pyStrip raw) 1)) = true
  · rw [if_pos h1]
    exact h
  · rw [if_neg h1]
    by_cases h2 : pyStartsWith (pyStrip raw) "- " = true
    · rw [if_pos h2]
      cases cur with
      | none => exact h
      | some cat =>
        dsimp only
        by_cases h3 : pyStrip (pyDrop (pyStrip raw) 2) ≠ ""
            ∧ pyStrip (pyDrop (pyStrip raw) 2) ∉ lookupCat m cat
        · rw [if_pos h3]
          exact goodMap_addEntity m cat _ h h3.2
        · rw [if_neg h3]
          exact h
    · rw [if_neg h2]
      exact h

/-- The fold over all lines preserves the invariant. -/
theorem goodMap_foldl (lines : List String) :
    ∀ st : Option String × EntMap, GoodMap st.2 →
      GoodMap (lines.foldl parseEntityLine st).2 := by
  induction lines with
  | nil => intro st h; exact h
  | cons l rest ih =>
    intro st h
    exact ih (parseEntityLine st l) (goodMap_parseEntityLine st l h)

/-- A synthetic response: two categories of three bullet items each, one
in-category duplicate, and assorted non-matching lines. -/
def sampleEntityResponse : String :=
  "ENTITIES\n========\n\ncities_places:\n- London\n- Docklands\n- Canary Wharf\n- London\n\ntransport_planning:\n- DLR\n- Light Rail\n- Public Transit\nrandom note line\n"

/-- C6: the entity parser recognizes exactly the six fixed category names as
exact-match `:`-headers, takes items only from `"- "` bullet lines under the
current category, leaves every other line without effect, and suppresses
in-category duplicates; the synthetic 2×3 response (with one duplicate)
parses to exactly those six items, partitioned by category. -/
theorem entity_parser_partitions_and_dedups :
    (parseEntityResponse sampleEntityResponse
      = [("cities_places", ["London", "Docklands", "Canary Wharf"]),
         ("transport_planning", ["DLR", "Light Rail", "Public Transit"]),
         ("urban_concepts", []), ("geographic_spatial", []),
         ("problems_challenges", []), ("solutions_methods", [])])
    ∧ (∀ response, ((parseEntityResponse response).map fun p => p.1) = entityCats)
    ∧ (∀ response, ((parseEntityResponse response).all fun p => p.2.Nodup) = true)
    ∧ (∀ (st : Option String × EntMap) (raw : String),
        pyEndsWith (pyStrip raw) ":" = false → pyStartsWith (pyStrip raw) "- " = false →
        parseEntityLine st raw = st) := by
  refine ⟨by decide, ?_, ?_, ?_⟩
  · intro response
    exact (goodMap_foldl (pySplitLines response) (none, emptyEntities) goodMap_empty).1
  · intro response
    have h := (goodMap_foldl (pySplitLines response) (none, emptyEntities) goodMap_empty).2
    rw [List.all_eq_true]
    intro p hp
    simpa using h p hp
  · intro st raw h1 h2
    unfold parseEntityLine
    simp [h1, h2]

/-- Witness for C6: a line that is neither a header nor a bullet leaves the
parser state untouched. -/
theorem entity_parser_partitions_and_dedups_witness :
    parseEntityLine (some "cities_places", emptyEntities) "ENTITIES"
      = (some "cities_places", emptyEntities) :=
  entity_parser_partitions_and_dedups.2.2.2 (some "cities_places", emptyEntities)
    "ENTITIES" (by decide) (by decide)

/-! ## `DocumentProcessor.process_document` (claim C10)

`process_document` returns one of three literal dicts: the analysis-error
dict, the success dict, or the internal-exception dict.  To make the key
set a real property, the result is embedded as an association list. -/

/-- A value stored in the result dict: the analysis fields are strings,
`is_hall_document` is an integer. -/
inductive FieldVal where
  | str (v : String)
  | nat (v : Nat)
  deriving DecidableEq, Repr

/-- The 12 documented result keys of `process_document`. -/
def analysisKeys : List String :=
  ["content_title", "content_authors", "initial_analysis", "detailed_analysis",
   "classification", "catalogue_entry", "final_analysis", "writing_style_analysis",
   "analytical_frameworks", "qa_pairs", "comparative_analyses", "is_hall_document"]

/-- `DocumentProcessor.process_document` given the outcome of
`analyze_document`, the final-analysis response, and `exc = some m` for an
exception raised inside its own `try` block (caught by its handler). -/
def processDocument (exc : Option String) (ar : AnalyzeResult) (finalResp : String) :
    List (String × FieldVal) :=
  match exc with
  | some m =>
    [("content_title", .str "Processing Error"),
     ("content_authors", .str "Unknown"),
     ("initial_analysis", .str ("Error: " ++ m)),
     ("detailed_analysis", .str ""),
     ("classification", .str ""),
     ("catalogue_entry", .str ""),
     ("final_analysis", .str ("Document processing failed: " ++ m)),
     ("writing_style_analysis", .str ""),
     ("analytical_frameworks", .str ""),
     ("qa_pairs", .str ""),
     ("comparative_analyses", .str ""),
     ("is_hall_document", .nat 0)]
  | none =>
    match ar with
    | .error e fb =>
      [("content_title", .str "Analysis Failed"),
       ("content_authors", .str "Unknown"),
       ("initial_analysis", .str fb),
       ("detailed_analysis", .str ""),
       ("classification", .str ""),
       ("catalogue_entry", .str ""),
       ("final_analysis", .str e),
       ("writing_style_analysis", .str ""),
       ("analytical_frameworks", .str ""),
       ("qa_pairs", .str ""),
       ("comparative_analyses", .str ""),
       ("is_hall_document", .nat 0)]
    | .ok f =>
      [("content_title", .str f.content_title),
       ("content_authors", .str f.content_authors),
       ("initial_analysis", .str f.initial_analysis),
       ("detailed_analysis", .str f.detailed_analysis),
       ("classification", .str f.classification),
       ("catalogue_entry", .str f.catalogue_entry),
       ("final_analysis", .str finalResp),
       ("writing_style_analysis", .str f.writing_style_analysis),
       ("analytical_frameworks", .str f.analytical_frameworks),
       ("qa_pairs", .str f.qa_pairs),
       ("comparative_analyses", .str f.comparative_analyses),
       ("is_hall_document", .nat f.is_hall_document)]

/-- The hall flag of any success result of `analyze_document` is the
computed `hallFlag`. -/
theorem analyzeDocument_ok_hall (fallbackFn : String → String)
    (content metaAuthor : String) (r : StepResponses) (exc : Option String)
    (f : AnalysisFields)
    (h : analyzeDocument fallbackFn content metaAuthor r exc = .ok f) :
    f.is_hall_document
      = hallFlag metaAuthor (extractContentInfo r.extractOutcome).content_authors r.catResp := by
  unfold analyzeDocument at h
  cases exc with
  | some m => simp at h
  | none =>
    by_cases h1 : pyStartsWith r.initResp "Error:" = true
    · simp [h1] at h
    · by_cases h2 : pyStartsWith r.detResp "Error:" = true
      · simp [h1, h2] at h
      · simp [h1, h2] at h
        rw [← h]

/-- C10: `process_document` never raises (it is a total function of the
analysis outcome) and on all three paths — success, analysis-error, and
internal exception — returns a dict holding all 12 documented keys, with
`is_hall_document ∈ {0, 1}`. -/
theorem processDocument_all_paths_have_all_keys (fallbackFn : String → String)
    (content metaAuthor : String) (r : StepResponses)
    (analysisExc procExc : Option String) (finalResp : String) :
    (analysisKeys.all fun k =>
      ((processDocument procExc (analyzeDocument fallbackFn content metaAuthor r analysisExc)
          finalResp).lookup k).isSome) = true
    ∧ ((processDocument procExc (analyzeDocument fallbackFn content metaAuthor r analysisExc)
          finalResp).lookup "is_hall_document" = some (.nat 0)
        ∨ (processDocument procExc (analyzeDocument fallbackFn content metaAuthor r analysisExc)
            finalResp).lookup "is_hall_document" = some (.nat 1)) := by
  cases procExc with
  | some m => exact ⟨rfl, Or.inl rfl⟩
  | none =>
    cases har : analyzeDocument fallbackFn content metaAuthor r analysisExc with
    | error e fb => exact ⟨rfl, Or.inl rfl⟩
    | ok f =>
      refine ⟨rfl, ?_⟩
      have hh := analyzeDocument_ok_hall fallbackFn content metaAuthor r analysisExc f har
      have hlook : (processDocument none (.ok f) finalResp).lookup "is_hall_document"
          = some (.nat f.is_hall_document) := rfl
      rw [hlook, hh]
      rcases hallFlag_zero_or_one metaAuthor
          (extractContentInfo r.extractOutcome).content_authors r.catResp with h0 | h1
      · exact Or.inl (by rw [h0])
      · exact Or.inr (by rw [h1])

/-- C5: every failure branch of `_generate_mistral_embedding` (non-200
status, timeout, any other exception) returns the fixed 1024-dimensional
all-zero vector — the failure is absorbed, never propagated — while a
successful decoded vector is returned as-is. -/
theorem embedding_failure_returns_zero_vector :
    (∀ code, generateMistralEmbedding (.httpError code) = List.replicate 1024 0)
    ∧ generateMistralEmbedding .timeout = List.replicate 1024 0
    ∧ (∀ m, generateMistralEmbedding (.exc m) = List.replicate 1024 0)
    ∧ (generateMistralEmbedding .timeout).length = 1024
    ∧ ((generateMistralEmbedding .timeout).all fun x => x == 0) = true
    ∧ (∀ vec, generateMistralEmbedding (.ok vec) = vec) := by
  refine ⟨fun _ => rfl, rfl, fun _ => rfl, ?_, ?_, fun _ => rfl⟩
  · rw [show generateMistralEmbedding .timeout = List.replicate 1024 0 from rfl,
      List.length_replicate]
  · rw [show generateMistralEmbedding .timeout = List.replicate 1024 0 from rfl]
    rw [List.all_eq_true]
    intro x hx
    rw [List.eq_of_mem_replicate hx]
    rfl

/-! ## The webhook gate: `webhook_start_analysis` (claims C2, C7)

The decision logic after secret verification and payload decoding.  The
record store is abstracted: `idempotencyStatus` is the status the live
`check_idempotency` read observes (`none` for fetch failure, missing record,
missing configuration, or an exception — all of which make the check fail),
and `freshRecord` is what `get_queue_record` would return. -/

/-- The fields of a `processing_queue` row used by the gate (`none` models a
missing key). -/
structure WebhookRecord where
  id : Option String
  status : Option String
  content : Option String
  file_name : Option String
  file_type : Option String
  deriving DecidableEq, Repr

/-- The external-store responses one webhook handling observes. -/
structure WebhookEnv where
  idempotencyStatus : Option String
  freshRecord : Option WebhookRecord
  deriving DecidableEq, Repr

/-- `check_idempotency`: true exactly when the live read observed the
expected status. -/
def checkIdempotency (live : Option String) (expected : String) : Bool :=
  live = some expected

/-- The HTTP answer of `webhook_start_analysis` (after authentication):
a 400 error, a 200 `skipped`, the direct-to-`ready` 200 `completed`
(carrying the fields it writes), or a 202 `accepted` that dispatches the
background analysis with the given content and metadata. -/
inductive WebhookOutcome where
  | badPayload (msg : String)
  | skipped (reason : String)
  | readyNoContent (status currentStep : String) (progress : Nat)
  | accepted (queueId content fileName fileType : String) (wordCount : Nat)
  deriving DecidableEq, Repr

/-- Whether the outcome dispatched the background analysis thread — the only
path on which any outbound LLM call is ever made (the handler itself makes
none). -/
def WebhookOutcome.dispatched : WebhookOutcome → Bool
  | .accepted _ _ _ _ _ => true
  | _ => false

/-- The record the content check runs on: if the payload content is falsy,
`get_queue_record` is consulted and, when it returns a row, replaces the
record. -/
def effectiveRecord (record : WebhookRecord) (env : WebhookEnv) : WebhookRecord :=
  if optFalsy record.content then
    match env.freshRecord with
    | some fr => fr
    | none => record
  else record

/-- `webhook_start_analysis` (body of the `try`, after secret check and
payload decode): eligibility gate, live idempotency check, degenerate-content
guard, dispatch. -/
def webhookStartAnalysis (record : WebhookRecord) (oldStatus : Option String)
    (env : WebhookEnv) : WebhookOutcome :=
  if record.id.getD "" = "" then .badPayload "No queue_id in payload"
  else if record.status ≠ some "ocr_complete" then .skipped "status is not ocr_complete"
  else if oldStatus = some "ocr_complete" then .skipped "status unchanged"
  else if checkIdempotency env.idempotencyStatus "ocr_complete" = true then
    if optFalsy (effectiveRecord record env).content = true
        ∨ (pyStrip ((effectiveRecord record env).content.getD "")).length < 50 then
      .readyNoContent "ready" "Completed (no content to analyze)" 100
    else
      .accepted (record.id.getD "") ((effectiveRecord record env).content.getD "")
        ((effectiveRecord record env).file_name.getD "document")
        ((effectiveRecord record env).file_type.getD "pdf")
        (pySplitWs ((effectiveRecord record env).content.getD "")).length
  else .skipped "already processing"

/-- C2: the analysis is dispatched only when the new status is
`"ocr_complete"`, the old status is not, and the live idempotency read still
observes `"ocr_complete"`; and the unchanged-status payload (old and new
both `"ocr_complete"`) is skipped even though the idempotency read alone
would pass. -/
theorem webhook_dispatch_requires_transition_and_idempotency :
    (∀ (record : WebhookRecord) (oldStatus : Option String) (env : WebhookEnv)
        (qid content fileName fileType : String) (wc : Nat),
        webhookStartAnalysis record oldStatus env
            = .accepted qid content fileName fileType wc →
        record.status = some "ocr_complete" ∧ oldStatus ≠ some "ocr_complete"
          ∧ env.idempotencyStatus = some "ocr_complete")
    ∧ webhookStartAnalysis
        { id := some "rec-1", status := some "ocr_complete",
          content := some "This content is certainly longer than the fifty-character minimum.",
          file_name := some "doc.pdf", file_type := some "pdf" }
        (some "ocr_complete")
        { idempotencyStatus := some "ocr_complete", freshRecord := none }
      = .skipped "status unchanged" := by
  constructor
  · intro record oldStatus env qid content fileName fileType wc h
    unfold webhookStartAnalysis at h
    by_cases hid : record.id.getD "" = ""
    · rw [if_pos hid] at h
      exact absurd h (by simp)
    · rw [if_neg hid] at h
      by_cases hst : record.status ≠ some "ocr_complete"
      · rw [if_pos hst] at h
        exact absurd h (by simp)
      · rw [if_neg hst] at h
        rw [not_not] at hst
        by_cases hold : oldStatus = some "ocr_complete"
        · rw [if_pos hold] at h
          exact absurd h (by simp)
        · rw [if_neg hold] at h
          by_cases hidem : checkIdempotency env.idempotencyStatus "ocr_complete" = true
          · refine ⟨hst, hold, ?_⟩
            have : (env.idempotencyStatus == some "ocr_complete") = true := by
              simpa [checkIdempotency] using hidem
            simpa using this
          · rw [if_neg hidem] at h
            exact absurd h (by simp)
  · decide

/-- Witness for C2: a transition-eligible payload that does dispatch, so the
necessary conditions of the dispatch rule are exhibited. -/
theorem webhook_dispatch_requires_transition_and_idempotency_witness :
    (some "rec-2" : Option String) = some "ocr_complete" ∧ False ∨
      ((WebhookRecord.mk (some "rec-2") (some "ocr_complete")
            (some "This content is certainly longer than the fifty-character minimum.")
            (some "doc.pdf") (some "pdf")).status = some "ocr_complete"
        ∧ (none : Option String) ≠ some "ocr_complete"
        ∧ (WebhookEnv.mk (some "ocr_complete") none).idempotencyStatus
            = some "ocr_complete") :=
  Or.inr
    (webhook_dispatch_requires_transition_and_idempotency.1
      { id := some "rec-2", status := some "ocr_complete",
        content := some "This content is certainly longer than the fifty-character minimum.",
        file_name := some "doc.pdf", file_type := some "pdf" }
      none
      { idempotencyStatus := some "ocr_complete", freshRecord := none }
      "rec-2" "This content is certainly longer than the fifty-character minimum."
      "doc.pdf" "pdf" 9 (by decide))

/-- C7: when the gates pass but the (possibly re-fetched) content is falsy or
shorter than 50 characters after stripping, the handler answers with the
direct transition to `"ready"`, step note `"Completed (no content to
analyze)"` and progress 100, and dispatches nothing — so no outbound LLM
call is made (such calls happen only in the dispatched background unit). -/
theorem short_content_direct_ready_no_dispatch
    (record : WebhookRecord) (oldStatus : Option String) (env : WebhookEnv)
    (hid : ¬ record.id.getD "" = "")
    (hnew : record.status = some "ocr_complete")
    (hold : ¬ oldStatus = some "ocr_complete")
    (hidem : env.idempotencyStatus = some "ocr_complete")
    (hshort : optFalsy (effectiveRecord record env).content = true
      ∨ (pyStrip ((effectiveRecord record env).content.getD "")).length < 50) :
    webhookStartAnalysis record oldStatus env
      = .readyNoContent "ready" "Completed (no content to analyze)" 100
    ∧ (webhookStartAnalysis record oldStatus env).dispatched = false := by
  have hcheck : checkIdempotency env.idempotencyStatus "ocr_complete" = true := by
    simp [checkIdempotency, hidem]
  have hmain : webhookStartAnalysis record oldStatus env
      = .readyNoContent "ready" "Completed (no content to analyze)" 100 := by
    unfold webhookStartAnalysis
    rw [if_neg hid, if_neg (by simpa using hnew), if_neg hold, if_pos hcheck, if_pos hshort]
  exact ⟨hmain, by rw [hmain]; rfl⟩

/-- Witness for C7: a record whose content is six characters long. -/
theorem short_content_direct_ready_no_dispatch_witness :
    webhookStartAnalysis
      { id := some "rec-3", status := some "ocr_complete", content := some "tiny  ",
        file_name := none, file_type := none }
      none
      { idempotencyStatus := some "ocr_complete", freshRecord := none }
      = .readyNoContent "ready" "Completed (no content to analyze)" 100
    ∧ (webhookStartAnalysis
        { id := some "rec-3", status := some "ocr_complete", content := some "tiny  ",
          file_name := none, file_type := none }
        none
        { idempotencyStatus := some "ocr_complete", freshRecord := none }).dispatched
      = false :=
  short_content_direct_ready_no_dispatch
    { id := some "rec-3", status := some "ocr_complete", content := some "tiny  ",
      file_name := none, file_type := none }
    none
    { idempotencyStatus := some "ocr_complete", freshRecord := none }
    (by decide) (by decide) (by decide) (by decide) (by decide)

/-! ## Concurrent duplicate notifications (claim C8)

An interleaving model of two webhook units handling identical
transition-eligible notifications for the same record.  Each unit performs,
in program order, the store operations of the source:

* pc 0 — the `check_idempotency` read in `webhook_start_analysis` (one HTTP
  GET); the unit dispatches exactly when it observes `"ocr_complete"`,
* pc 1 — the first write of `run_webhook_analysis`:
  `status := "analysis_in_progress"`,
* pc 2 — the completion write: `status := "analysis_complete"`,
* pc 3 — done (or skipped).

The store (the external record's status) is the only shared state; the
scheduler chooses which unit performs its next atomic operation.  `passed`
records that the unit's read observed the precondition, i.e. that it started
a full analysis cycle from scratch. -/

/-- One webhook unit: program counter and whether its idempotency read
passed. -/
structure ProcState where
  pc : Nat
  passed : Bool
  deriving DecidableEq, Repr

/-- The shared record status plus the two units. -/
structure TwoSys where
  store : String
  pa : ProcState
  pb : ProcState
  deriving DecidableEq, Repr

/-- One atomic operation of a unit against the store. -/
def procStep (store : String) (p : ProcState) : String × ProcState :=
  if p.pc = 0 then
    if store = "ocr_complete" then (store, ⟨1, true⟩) else (store, ⟨3, false⟩)
  else if p.pc = 1 then ("analysis_in_progress", ⟨2, p.passed⟩)
  else if p.pc = 2 then ("analysis_complete", ⟨3, p.passed⟩)
  else (store, p)

/-- The scheduler lets unit `a` (`true`) or unit `b` (`false`) step. -/
def sysStep (s : TwoSys) : Bool → TwoSys
  | true =>
    { store := (procStep s.store s.pa).1, pa := (procStep s.store s.pa).2, pb := s.pb }
  | false =>
    { store := (procStep s.store s.pb).1, pa := s.pa, pb := (procStep s.store s.pb).2 }

/-- Run a schedule (a list of unit choices). -/
def runSched (s : TwoSys) (sched : List Bool) : TwoSys :=
  sched.foldl sysStep s

/-- Both units triggered while the record is in `"ocr_complete"`. -/
def initSys : TwoSys :=
  { store := "ocr_complete", pa := ⟨0, false⟩, pb := ⟨0, false⟩ }

/-- How many units started a full analysis cycle from scratch. -/
def cyclesStarted (s : TwoSys) : Nat :=
  (if s.pa.passed then 1 else 0) + (if s.pb.passed then 1 else 0)

/-- C8, counterexample: the schedule in which both idempotency reads happen
before either in-progress write lets both units pass the check, and two full
analysis cycles start from scratch — the precondition read alone does not
bound them by one. -/
theorem both_reads_pass_two_cycles_counterexample :
    cyclesStarted (runSched initSys [true, false, true, true, false, false]) = 2
    ∧ ¬ cyclesStarted (runSched initSys [true, false, true, true, false, false]) ≤ 1
    ∧ (runSched initSys [true, false, true, true, false, false]).pa.passed = true
    ∧ (runSched initSys [true, false, true, true, false, false]).pb.passed = true := by
  decide

/-- The inductive safety property once the store has left `"ocr_complete"`
and unit `b` has not passed its read. -/
def SafeSys (s : TwoSys) : Prop :=
  ¬ s.store = "ocr_complete" ∧ s.pb.passed = false

/-- A step never writes `"ocr_complete"` back, and a unit that has not
passed its read cannot pass it against a non-`"ocr_complete"` store. -/
theorem procStep_keeps (store : String) (p : ProcState)
    (hs : ¬ store = "ocr_complete") (hp : p.passed = false) :
    ¬ (procStep store p).1 = "ocr_complete" ∧ (procStep store p).2.passed = false := by
  unfold procStep
  by_cases h0 : p.pc = 0
  · rw [if_pos h0, if_neg hs]
    exact ⟨hs, rfl⟩
  · rw [if_neg h0]
    by_cases h1 : p.pc = 1
    · rw [if_pos h1]
      exact ⟨by show ¬ ("analysis_in_progress" : String) = "ocr_complete"; decide, hp⟩
    · rw [if_neg h1]
      by_cases h2 : p.pc = 2
      · rw [if_pos h2]
        exact ⟨by show ¬ ("analysis_complete" : String) = "ocr_complete"; decide, hp⟩
      · rw [if_neg h2]
        exact ⟨hs, hp⟩

/-- A step never writes `"ocr_complete"` back (any unit). -/
theorem procStep_store_safe (store : String) (p : ProcState)
    (hs : ¬ store = "ocr_complete") : ¬ (procStep store p).1 = "ocr_complete" := by
  unfold procStep
  by_cases h0 : p.pc = 0
  · rw [if_pos h0, if_neg hs]
    exact hs
  · rw [if_neg h0]
    by_cases h1 : p.pc = 1
    · rw [if_pos h1]
      show ¬ ("analysis_in_progress" : String) = "ocr_complete"
      decide
    · rw [if_neg h1]
      by_cases h2 : p.pc = 2
      · rw [if_pos h2]
        show ¬ ("analysis_complete" : String) = "ocr_complete"
        decide
      · rw [if_neg h2]
        exact hs

theorem safeSys_step (s : TwoSys) (pid : Bool) (h : SafeSys s) : SafeSys (sysStep s pid) := by
  obtain ⟨h1, h2⟩ := h
  cases pid
  · exact ⟨(procStep_keeps s.store s.pb h1 h2).1, (procStep_keeps s.store s.pb h1 h2).2⟩
  · exact ⟨procStep_store_safe s.store s.pa h1, h2⟩

theorem safeSys_run (sched : List Bool) :
    ∀ s : TwoSys, SafeSys s → SafeSys (runSched s sched) := by
  induction sched with
  | nil => exact fun s h => h
  | cons pid rest ih => exact fun s h => ih (sysStep s pid) (safeSys_step s pid h)

/-- C8, amended: the idempotency read bounds the cycles only for
interleavings in which the second unit's read follows the first unit's
in-progress write — whenever the first unit performs its read and its
in-progress write before the second unit runs at all, every continuation
starts at most one full cycle (the second read observes
`"analysis_in_progress"` and skips).  Interleavings where both reads precede
the write admit two cycles (see the counterexample). -/
theorem read_after_inprogress_write_at_most_one_cycle (rest : List Bool) :
    cyclesStarted (runSched initSys (true :: true :: rest)) ≤ 1 := by
  have h2 : runSched initSys (true :: true :: rest)
      = runSched { store := "analysis_in_progress", pa := ⟨2, true⟩, pb := ⟨0, false⟩ } rest :=
    rfl
  rw [h2]
  have hsafe := safeSys_run rest
    { store := "analysis_in_progress", pa := ⟨2, true⟩, pb := ⟨0, false⟩ }
    ⟨by decide, rfl⟩
  unfold cyclesStarted
  rw [hsafe.2]
  have hb : ∀ b : Bool, ((if b = true then 1 else 0) + if (false : Bool) = true then 1 else 0) ≤ 1 := by
    intro b
    cases b <;> decide
  exact hb _

end MistralAnalysis
